import Mathlib

/-!
Turtle-game: the per-frame simulation core of `src/main.js`

A shallow embedding of the module-level game state and of the functions
`resetWorld`, `startGame`, `resetToMenu`, `gameOver`, `updateScore`,
`spawnEntity`, `dist2`, `update`, `loop`, `handlePressStart` and
`handlePressEnd`.

Modelling conventions.

* JavaScript numbers are modelled as exact rationals (`ℚ`): rounding, `NaN`
  and the infinities of IEEE doubles are outside the model.
* `Math.sin` and `Math.PI` are library values the program only consumes; they
  are the fields of `Env`.  `Math.random()` is modelled by the three draws of
  `Draws`, in the order `spawnEntity` makes them.
* The canvas has the fixed internal resolution `800 x 450` that `fitCanvas`
  assigns before the first frame.
* The DOM (overlay, buttons, score label) and `localStorage` are not modelled,
  except that every call `addScoreToLB(player, score)` is recorded, in order,
  in the field `lbCalls`.  The set `passed` is cleared by `resetWorld` and never
  written elsewhere; it is left out.
-/

namespace TurtleGame

/-! ## Constants (lines 16-23) -/

def BUOYANCY : ℚ := -500
def DIVE_ACCEL : ℚ := 900
def MAX_VY : ℚ := 520
def HAZARD_SPEED : ℚ := 180
def PEARL_SPEED : ℚ := 220
def SPAWN_EVERY : ℚ := 1100
def SURFACE_Y : ℚ := 40

/-- Internal canvas width, `canvas.width = 800` in `fitCanvas`. -/
def canvasWidth : ℚ := 800
/-- Internal canvas height, `canvas.height = 450` in `fitCanvas`. -/
def canvasHeight : ℚ := 450

/-- The seabed line `SEABED_Y() = canvas.height - 60`. -/
def SEABED_Y : ℚ := canvasHeight - 60

/-! ## Data model (lines 26-45) -/

/-- The variable `state`: `'menu' | 'playing' | 'gameover'`. -/
inductive State where
  | menu
  | playing
  | gameover
  deriving DecidableEq, Repr

/-- The object `turtle`. -/
structure Turtle where
  x : ℚ
  y : ℚ
  r : ℚ
  vy : ℚ
  deriving DecidableEq, Repr

/-- An item of `jellys`: `{ x, y, r, phase }`. -/
structure Jelly where
  x : ℚ
  y : ℚ
  r : ℚ
  phase : ℚ
  deriving DecidableEq, Repr

/-- An item of `pearls`: `{ x, y, r }`. -/
structure Pearl where
  x : ℚ
  y : ℚ
  r : ℚ
  deriving DecidableEq, Repr

/-- The module-level variables of `main.js`, with the record `lbCalls` of the
scores handed to `addScoreToLB`. -/
structure Session where
  state : State
  last : ℚ
  accSpawn : ℚ
  score : ℕ
  turtle : Turtle
  jellys : List Jelly
  pearls : List Pearl
  isDiving : Bool
  lbCalls : List ℕ
  deriving DecidableEq, Repr

/-- The library values the simulation reads: `Math.sin` and `Math.PI`. -/
structure Env where
  sin : ℚ → ℚ
  pi : ℚ

/-- The results of the successive `Math.random()` calls of one `spawnEntity`:
`u1` for the height, `u2` for the kind, `u3` for the phase of a jellyfish. -/
structure Draws where
  u1 : ℚ
  u2 : ℚ
  u3 : ℚ

/-! ## Session lifecycle (lines 132-177) -/

/-- Function `updateScore(v)`: sets `score` (the DOM label is not modelled). -/
def updateScore (v : ℕ) (s : Session) : Session :=
  { s with score := v }

/-- Function `resetWorld()`, lines 161-172. -/
def resetWorld (s : Session) : Session :=
  updateScore 0
    { s with
      turtle := { s.turtle with x := 140, y := 280, vy := 0 }
      jellys := []
      pearls := []
      score := 0
      accSpawn := 0 }

/-- Function `startGame()`, lines 132-138. -/
def startGame (s : Session) : Session :=
  resetWorld { s with state := State.playing }

/-- Function `resetToMenu()`, lines 140-147. -/
def resetToMenu (s : Session) : Session :=
  resetWorld { s with state := State.menu }

/-- Function `gameOver()`, lines 149-159: enters `gameover` and hands the current score
to `addScoreToLB`. -/
def gameOver (s : Session) : Session :=
  { s with state := State.gameover, lbCalls := s.lbCalls ++ [s.score] }

/-! ## Spawning (lines 179-188) -/

/-- Function `spawnEntity()`: one jellyfish or one pearl entering from the right. -/
def spawnEntity (env : Env) (d : Draws) (s : Session) : Session :=
  let y : ℚ := ((⌊SURFACE_Y + 40 + d.u1 * (SEABED_Y - SURFACE_Y - 80)⌋ : ℤ) : ℚ)
  if d.u2 < 55 / 100 then
    { s with jellys := s.jellys ++
        [{ x := canvasWidth + 40, y := y, r := 24, phase := d.u3 * env.pi * 2 }] }
  else
    { s with pearls := s.pearls ++ [{ x := canvasWidth + 40, y := y, r := 10 }] }

/-! ## The tick (lines 190-236) -/

/-- Function `dist2(ax, ay, bx, by)`, line 190. -/
def dist2 (ax ay bx b_y : ℚ) : ℚ :=
  let dx := ax - bx
  let dy := ay - b_y
  dx * dx + dy * dy

/-- Lines 196-197: the spawn accumulator and the spawn it triggers. -/
def spawnPhase (env : Env) (d : Draws) (dt : ℚ) (s : Session) : Session :=
  let s1 := { s with accSpawn := s.accSpawn + dt * 1000 }
  if s1.accSpawn ≥ SPAWN_EVERY then spawnEntity env d { s1 with accSpawn := 0 } else s1

/-- Body of the loop of lines 200-204 for one jellyfish. -/
def moveJelly (env : Env) (dt : ℚ) (j : Jelly) : Jelly :=
  let x := j.x - HAZARD_SPEED * dt
  let phase := j.phase + dt * (5 / 2)
  { j with x := x, phase := phase, y := j.y + env.sin phase * 18 * dt }

/-- Body of the loop of line 205 for one pearl. -/
def movePearl (dt : ℚ) (p : Pearl) : Pearl :=
  { p with x := p.x - PEARL_SPEED * dt }

/-- Lines 199-207: advance every entity, then drop those past the left edge. -/
def moveEntities (env : Env) (dt : ℚ) (s : Session) : Session :=
  { s with
    jellys := (s.jellys.map (moveJelly env dt)).filter (fun j => decide (j.x + j.r > -20))
    pearls := (s.pearls.map (movePearl dt)).filter (fun p => decide (p.x + p.r > -20)) }

/-- Lines 210-213: acceleration, velocity clamp and position integration. -/
def physicsTurtle (isDiving : Bool) (dt : ℚ) (t : Turtle) : Turtle :=
  let accel := if isDiving then DIVE_ACCEL else BUOYANCY
  let vy := t.vy + accel * dt
  let vy := max (-MAX_VY) (min MAX_VY vy)
  { t with vy := vy, y := t.y + vy * dt }

/-- Lines 216-219: the surface clamp. -/
def surfaceClamp (t : Turtle) : Turtle :=
  if t.y - t.r < SURFACE_Y then
    let t1 := { t with y := SURFACE_Y + t.r }
    if t1.vy < 0 then { t1 with vy := 0 } else t1
  else t

/-- The test of line 225 for one jellyfish. -/
def hitsJelly (t : Turtle) (j : Jelly) : Bool :=
  let r := t.r + j.r - 2
  decide (dist2 t.x t.y j.x j.y < r * r)

/-- The test of line 231 for one pearl. -/
def hitsPearl (t : Turtle) (p : Pearl) : Bool :=
  let r := t.r + p.r
  decide (dist2 t.x t.y p.x p.y < r * r)

/-- The loop of lines 228-235, `n` being the number of indices still to visit:
the next index is `i = n - 1`; a hit pearl is spliced out and the score is
incremented.  (`pearls[i]` is always defined, the index being below the
length; the `none` branch only makes the function total.) -/
def pearlLoop (t : Turtle) : ℕ → List Pearl → ℕ → List Pearl × ℕ
  | 0, ps, sc => (ps, sc)
  | i + 1, ps, sc =>
    match ps[i]? with
    | some p =>
      if hitsPearl t p then pearlLoop t i (ps.eraseIdx i) (sc + 1)
      else pearlLoop t i ps sc
    | none => pearlLoop t i ps sc

/-- Lines 227-235 on the session. -/
def collectPearls (s : Session) : Session :=
  let r := pearlLoop s.turtle s.pearls.length s.pearls s.score
  updateScore r.2 { s with pearls := r.1 }

/-- The session after line 219: spawn, entity motion and cull, turtle physics
and surface clamp have run; the seabed and collision checks have not. -/
def afterBounds (env : Env) (d : Draws) (dt : ℚ) (s : Session) : Session :=
  let s2 := moveEntities env dt (spawnPhase env d dt s)
  { s2 with turtle := surfaceClamp (physicsTurtle s2.isDiving dt s2.turtle) }

/-- Function `update(dt)`, lines 192-236. -/
def update (env : Env) (d : Draws) (dt : ℚ) (s : Session) : Session :=
  if s.state ≠ State.playing then s
  else
    let s4 := afterBounds env d dt s
    if s4.turtle.y + s4.turtle.r > SEABED_Y then gameOver s4
    else if s4.jellys.any (hitsJelly s4.turtle) then gameOver s4
    else collectPearls s4

/-! ## The frame loop and the controls (lines 102-116, 378-393) -/

/-- The JavaScript expression `x || 0` on a number: `0` is the only falsy
rational. -/
def orZero (x : ℚ) : ℚ := if x = 0 then 0 else x

/-- The `dt` of line 379: `Math.min(0.033, (ts - last) / 1000 || 0)`. -/
def loopDt (ts last : ℚ) : ℚ :=
  min (33 / 1000) (orZero ((ts - last) / 1000))

/-- Function `loop(ts)`, lines 378-393, without the drawing. -/
def loop (env : Env) (d : Draws) (ts : ℚ) (s : Session) : Session :=
  let dt := loopDt ts s.last
  update env d dt { s with last := ts }

/-- Function `handlePressStart()`, lines 103-106. -/
def handlePressStart (s : Session) : Session :=
  let s1 := if s.state = State.menu ∨ s.state = State.gameover then startGame s else s
  { s1 with isDiving := true }

/-- Function `handlePressEnd()`, line 107. -/
def handlePressEnd (s : Session) : Session :=
  { s with isDiving := false }

/-- The module-level initialisers of lines 26-45 and 102. -/
def initialVars : Session :=
  { state := State.menu, last := 0, accSpawn := 0, score := 0
    turtle := { x := 160, y := 220, r := 20, vy := 0 }
    jellys := [], pearls := [], isDiving := false, lbCalls := [] }

/-- The session when the first frame is requested: line 397 has run. -/
def initialSession : Session := resetToMenu initialVars

/-- What can happen between two states of the session. -/
inductive Event where
  | frame (ts : ℚ) (d : Draws)
  | pressStart
  | pressEnd
  | clickStart
  | reset

/-- The handler bound to each event (lines 94-95, 108-116, 392). -/
def step (env : Env) : Event → Session → Session
  | Event.frame ts d, s => loop env d ts s
  | Event.pressStart, s => handlePressStart s
  | Event.pressEnd, s => handlePressEnd s
  | Event.clickStart, s => startGame s
  | Event.reset, s => resetToMenu s

/-- The sessions reachable from the initial one by any sequence of events. -/
inductive Reachable (env : Env) : Session → Prop where
  | init : Reachable env initialSession
  | next (e : Event) (s : Session) : Reachable env s → Reachable env (step env e s)

/-- A run of `update` calls, one per pair of a `dt` and the draws it may use. -/
def updates (env : Env) : List (ℚ × Draws) → Session → Session
  | [], s => s
  | (dt, d) :: rest, s => updates env rest (update env d dt s)

/-- A stand-in library for evaluating concrete scenarios: a sine that is
constantly zero and `22/7` for pi.  No theorem depends on these values. -/
def sampleEnv : Env := { sin := fun _ => 0, pi := 22 / 7 }

/-- Draws for evaluating concrete scenarios. -/
def sampleDraws : Draws := { u1 := 1 / 2, u2 := 1 / 4, u3 := 0 }

/-! ## Concrete sessions used to instantiate the theorems -/

/-- A playing session with the turtle at the spawn pose and nothing else. -/
def playingAtSpawn : Session := startGame initialSession

/-- A playing session with the turtle close to the surface, moving up. -/
def nearSurface : Session :=
  { playingAtSpawn with turtle := { x := 140, y := 60, r := 20, vy := -100 } }

/-- A playing session with the turtle one pixel into the seabed line
(`371 = 390 - 20 + 1`), at rest, and one pearl in mid-field. -/
def atSeabed : Session :=
  { playingAtSpawn with
    turtle := { x := 140, y := 371, r := 20, vy := 0 }
    pearls := [{ x := 400, y := 200, r := 10 }] }

/-- The pickup scenario: turtle of radius 20 at `(140, 280)`, a pearl of radius
10 at `(150, 280)`, score 3. -/
def pearlScenario : Session :=
  { playingAtSpawn with score := 3, pearls := [{ x := 150, y := 280, r := 10 }] }

/-- The hazard scenario: turtle of radius 20 at `(140, 280)`, a jellyfish of
radius 24 at `(150, 280)` and a pearl overlapping the turtle as well. -/
def jellyScenario : Session :=
  { playingAtSpawn with
    score := 3
    jellys := [{ x := 150, y := 280, r := 24, phase := 0 }]
    pearls := [{ x := 150, y := 280, r := 10 }] }

/-- A playing session with one jellyfish and one pearl already past the left
edge, and one pearl in mid-field. -/
def cullScenario : Session :=
  { playingAtSpawn with
    jellys := [{ x := -50, y := 200, r := 24, phase := 0 }]
    pearls := [{ x := -40, y := 100, r := 10 }, { x := 400, y := 200, r := 10 }] }

/-- A session in `gameover` with entities, a score and a moving turtle left
over from the episode. -/
def deadSession : Session :=
  { jellyScenario with state := State.gameover, lbCalls := [3] }

/-! ## Frame lemmas -/

theorem spawnEntity_frame (env : Env) (d : Draws) (s : Session) :
    (spawnEntity env d s).state = s.state ∧ (spawnEntity env d s).score = s.score ∧
    (spawnEntity env d s).turtle = s.turtle ∧ (spawnEntity env d s).isDiving = s.isDiving ∧
    (spawnEntity env d s).lbCalls = s.lbCalls ∧ (spawnEntity env d s).last = s.last := by
  unfold spawnEntity
  split <;> simp

theorem spawnPhase_frame (env : Env) (d : Draws) (dt : ℚ) (s : Session) :
    (spawnPhase env d dt s).state = s.state ∧ (spawnPhase env d dt s).score = s.score ∧
    (spawnPhase env d dt s).turtle = s.turtle ∧ (spawnPhase env d dt s).isDiving = s.isDiving ∧
    (spawnPhase env d dt s).lbCalls = s.lbCalls ∧ (spawnPhase env d dt s).last = s.last := by
  unfold spawnPhase
  dsimp only
  split
  · simpa using spawnEntity_frame env d _
  · simp

theorem afterBounds_frame (env : Env) (d : Draws) (dt : ℚ) (s : Session) :
    (afterBounds env d dt s).state = s.state ∧ (afterBounds env d dt s).score = s.score ∧
    (afterBounds env d dt s).isDiving = s.isDiving ∧
    (afterBounds env d dt s).lbCalls = s.lbCalls ∧ (afterBounds env d dt s).last = s.last ∧
    (afterBounds env d dt s).turtle = surfaceClamp (physicsTurtle s.isDiving dt s.turtle) ∧
    (afterBounds env d dt s).jellys = (moveEntities env dt (spawnPhase env d dt s)).jellys ∧
    (afterBounds env d dt s).pearls = (moveEntities env dt (spawnPhase env d dt s)).pearls := by
  obtain ⟨h1, h2, h3, h4, h5, h6⟩ := spawnPhase_frame env d dt s
  simp [afterBounds, moveEntities, h1, h2, h3, h4, h5, h6]

theorem update_of_not_playing (env : Env) (d : Draws) (dt : ℚ) (s : Session)
    (h : s.state ≠ State.playing) : update env d dt s = s := by
  simp [update, h]

/-- The three exits of a playing tick. -/
theorem update_playing (env : Env) (d : Draws) (dt : ℚ) (s : Session)
    (h : s.state = State.playing) :
    update env d dt s =
      if (afterBounds env d dt s).turtle.y + (afterBounds env d dt s).turtle.r > SEABED_Y then
        gameOver (afterBounds env d dt s)
      else if (afterBounds env d dt s).jellys.any (hitsJelly (afterBounds env d dt s).turtle) then
        gameOver (afterBounds env d dt s)
      else collectPearls (afterBounds env d dt s) := by
  simp [update, h]

theorem update_turtle (env : Env) (d : Draws) (dt : ℚ) (s : Session)
    (h : s.state = State.playing) :
    (update env d dt s).turtle = surfaceClamp (physicsTurtle s.isDiving dt s.turtle) := by
  rw [update_playing env d dt s h, ← (afterBounds_frame env d dt s).2.2.2.2.2.1]
  split_ifs <;> simp [gameOver, collectPearls, updateScore]

theorem physicsTurtle_vy (b : Bool) (dt : ℚ) (t : Turtle) :
    -MAX_VY ≤ (physicsTurtle b dt t).vy ∧ (physicsTurtle b dt t).vy ≤ MAX_VY := by
  simp only [physicsTurtle]
  refine ⟨le_max_left _ _, max_le ?_ (min_le_left _ _)⟩
  norm_num [MAX_VY]

theorem surfaceClamp_vy (t : Turtle) (h : -MAX_VY ≤ t.vy ∧ t.vy ≤ MAX_VY) :
    -MAX_VY ≤ (surfaceClamp t).vy ∧ (surfaceClamp t).vy ≤ MAX_VY := by
  unfold surfaceClamp
  dsimp only
  split_ifs <;> simp_all [MAX_VY]

theorem surfaceClamp_r (t : Turtle) : (surfaceClamp t).r = t.r := by
  unfold surfaceClamp
  dsimp only
  split_ifs <;> rfl

theorem pearlLoop_append (t : Turtle) (pre : List Pearl) :
    ∀ (suf : List Pearl) (sc : ℕ),
      pearlLoop t pre.length (pre ++ suf) sc =
        (pre.filter (fun p => !hitsPearl t p) ++ suf, sc + pre.countP (hitsPearl t)) := by
  induction pre using List.reverseRecOn with
  | nil => intro suf sc; simp [pearlLoop]
  | append_singleton l a ih =>
    intro suf sc
    have hget : (l ++ [a] ++ suf)[l.length]? = some a := by
      rw [List.append_assoc, List.getElem?_append_right (le_refl _), Nat.sub_self]
      simp
    rw [List.length_append, List.length_singleton, pearlLoop, hget]
    dsimp only
    by_cases hh : hitsPearl t a = true
    · have he : (l ++ [a] ++ suf).eraseIdx l.length = l ++ suf := by
        rw [List.append_assoc, List.eraseIdx_append_of_length_le (le_refl _)]
        simp
      rw [if_pos hh, he, ih]
      simp [List.filter_append, List.countP_append, hh, Nat.add_assoc, Nat.add_comm 1]
    · rw [if_neg hh, List.append_assoc, ih]
      simp [List.filter_append, List.countP_append, hh]

theorem pearlLoop_eq_filter (t : Turtle) (ps : List Pearl) (sc : ℕ) :
    pearlLoop t ps.length ps sc =
      (ps.filter (fun p => !hitsPearl t p), sc + ps.countP (hitsPearl t)) := by
  simpa using pearlLoop_append t ps [] sc



/-! ## C1: velocity clamp -/

theorem update_vy_abs (env : Env) (d : Draws) (dt : ℚ) (s : Session)
    (h : |s.turtle.vy| ≤ MAX_VY) : |(update env d dt s).turtle.vy| ≤ MAX_VY := by
  by_cases hs : s.state = State.playing
  · rw [update_turtle env d dt s hs]
    exact abs_le.mpr (surfaceClamp_vy _ (physicsTurtle_vy _ _ _))
  · rw [update_of_not_playing env d dt s hs]
    exact h

theorem startGame_vy (s : Session) : (startGame s).turtle.vy = 0 := rfl

theorem resetToMenu_vy (s : Session) : (resetToMenu s).turtle.vy = 0 := rfl

theorem step_vy_abs (env : Env) (e : Event) (s : Session)
    (h : |s.turtle.vy| ≤ MAX_VY) : |(step env e s).turtle.vy| ≤ MAX_VY := by
  have h0 : |(0 : ℚ)| ≤ MAX_VY := by norm_num [MAX_VY]
  cases e with
  | frame ts d => exact update_vy_abs env d _ _ h
  | pressStart =>
    simp only [step, handlePressStart]
    split_ifs
    · simpa [startGame_vy] using h0
    · exact h
  | pressEnd => exact h
  | clickStart => simpa [step, startGame_vy] using h0
  | reset => simpa [step, resetToMenu_vy] using h0

theorem reachable_vy_abs (env : Env) (s : Session) (h : Reachable env s) :
    |s.turtle.vy| ≤ MAX_VY := by
  induction h with
  | init => norm_num [initialSession, resetToMenu_vy, MAX_VY]
  | next e s _ ih => exact step_vy_abs env e s ih

/-- C1. After `update(dt)` on any playing session, for either value of
`isDiving` and any `dt`, the turtle's vertical velocity lies in
`[-MAX_VY, MAX_VY]` with `MAX_VY = 520`; and in every session reachable from
the initial one by frames, presses, start clicks and resets, `|turtle.vy|` is
at most `520`. -/
theorem velocity_clamp (env : Env) (d : Draws) (dt : ℚ) (s : Session)
    (hs : s.state = State.playing) (s' : Session) (hr : Reachable env s') :
    (-MAX_VY ≤ (update env d dt s).turtle.vy ∧ (update env d dt s).turtle.vy ≤ MAX_VY) ∧
    MAX_VY = 520 ∧ |s'.turtle.vy| ≤ 520 := by
  refine ⟨?_, rfl, ?_⟩
  · rw [update_turtle env d dt s hs]
    exact surfaceClamp_vy _ (physicsTurtle_vy _ _ _)
  · have := reachable_vy_abs env s' hr
    rwa [show MAX_VY = 520 from rfl] at this

theorem velocity_clamp_witness :
    nearSurface.state = State.playing ∧
    Reachable sampleEnv (step sampleEnv (Event.frame 16 sampleDraws)
      (step sampleEnv Event.pressStart initialSession)) ∧
    ((-MAX_VY ≤ (update sampleEnv sampleDraws (33 / 1000) nearSurface).turtle.vy ∧
      (update sampleEnv sampleDraws (33 / 1000) nearSurface).turtle.vy ≤ MAX_VY) ∧
     MAX_VY = 520 ∧
     |(step sampleEnv (Event.frame 16 sampleDraws)
        (step sampleEnv Event.pressStart initialSession)).turtle.vy| ≤ 520) :=
  ⟨rfl, Reachable.next _ _ (Reachable.next _ _ Reachable.init),
    velocity_clamp sampleEnv sampleDraws (33 / 1000) nearSurface rfl _
      (Reachable.next _ _ (Reachable.next _ _ Reachable.init))⟩

/-! ## C2: surface floor -/

/-- C2. On a playing tick, if after velocity and position integration the
turtle's top is above the surface (`y - r < SURFACE_Y`, before the clamp), then
after the tick `turtle.y - turtle.r = SURFACE_Y = 40` and `turtle.vy ≥ 0`: a
negative integrated velocity is replaced by zero (not reflected), a
non-negative one is kept. -/
theorem surface_floor (env : Env) (d : Draws) (dt : ℚ) (s : Session)
    (hs : s.state = State.playing)
    (h : (physicsTurtle s.isDiving dt s.turtle).y - (physicsTurtle s.isDiving dt s.turtle).r
          < SURFACE_Y) :
    (update env d dt s).turtle.y - (update env d dt s).turtle.r = SURFACE_Y ∧
    SURFACE_Y = 40 ∧
    0 ≤ (update env d dt s).turtle.vy ∧
    (update env d dt s).turtle.vy = max (physicsTurtle s.isDiving dt s.turtle).vy 0 := by
  rw [update_turtle env d dt s hs]
  unfold surfaceClamp
  rw [if_pos h]
  dsimp only
  split_ifs with hv
  · refine ⟨by ring, rfl, le_refl _, ?_⟩
    exact (max_eq_right (le_of_lt hv)).symm
  · refine ⟨by ring, rfl, not_lt.mp hv, ?_⟩
    exact (max_eq_left (not_lt.mp hv)).symm

theorem nearSurface_crosses :
    (physicsTurtle nearSurface.isDiving (33 / 1000) nearSurface.turtle).y
      - (physicsTurtle nearSurface.isDiving (33 / 1000) nearSurface.turtle).r < SURFACE_Y := by
  norm_num [physicsTurtle, nearSurface, playingAtSpawn, startGame, resetWorld, updateScore,
    initialSession, resetToMenu, initialVars, BUOYANCY, MAX_VY, SURFACE_Y]

theorem surface_floor_witness :
    nearSurface.state = State.playing ∧
    (update sampleEnv sampleDraws (33 / 1000) nearSurface).turtle.y
      - (update sampleEnv sampleDraws (33 / 1000) nearSurface).turtle.r = SURFACE_Y ∧
    SURFACE_Y = 40 ∧
    0 ≤ (update sampleEnv sampleDraws (33 / 1000) nearSurface).turtle.vy ∧
    (update sampleEnv sampleDraws (33 / 1000) nearSurface).turtle.vy
      = max (physicsTurtle nearSurface.isDiving (33 / 1000) nearSurface.turtle).vy 0 :=
  ⟨rfl, surface_floor sampleEnv sampleDraws (33 / 1000) nearSurface rfl nearSurface_crosses⟩

/-! ## C3: seabed death fires -/

theorem physicsTurtle_r (b : Bool) (dt : ℚ) (t : Turtle) : (physicsTurtle b dt t).r = t.r := rfl

/-- One tick cannot lift a turtle that is not moving up by a full pixel. -/
theorem physicsTurtle_lift (b : Bool) (dt : ℚ) (t : Turtle)
    (hv : 0 ≤ t.vy) (h0 : 0 ≤ dt) (h1 : dt ≤ 33 / 1000) :
    t.y - 1 < (physicsTurtle b dt t).y := by
  have hvy : -500 * dt ≤ (physicsTurtle b dt t).vy := by
    simp only [physicsTurtle]
    refine le_trans ?_ (le_max_right _ _)
    refine le_min ?_ ?_
    · norm_num [MAX_VY]; linarith
    · cases b <;> simp only [DIVE_ACCEL, BUOYANCY] <;> norm_num <;> nlinarith
  have hy : (physicsTurtle b dt t).y = t.y + (physicsTurtle b dt t).vy * dt := rfl
  rw [hy]
  nlinarith [mul_le_mul_of_nonneg_right hvy h0]

theorem seabed_contact (b : Bool) (dt : ℚ) (t : Turtle)
    (hy : t.y = SEABED_Y - t.r + 1) (hv : 0 ≤ t.vy) (h0 : 0 ≤ dt) (h1 : dt ≤ 33 / 1000) :
    (surfaceClamp (physicsTurtle b dt t)).y + (surfaceClamp (physicsTurtle b dt t)).r
      > SEABED_Y := by
  have hl := physicsTurtle_lift b dt t hv h0 h1
  rw [surfaceClamp_r, physicsTurtle_r]
  unfold surfaceClamp
  rw [physicsTurtle_r]
  split_ifs with hc
  · have : (if (physicsTurtle b dt t).vy < 0 then
        ({ x := (physicsTurtle b dt t).x, y := SURFACE_Y + t.r, r := t.r, vy := 0 } : Turtle)
        else { x := (physicsTurtle b dt t).x, y := SURFACE_Y + t.r, r := t.r,
               vy := (physicsTurtle b dt t).vy }).y = SURFACE_Y + t.r := by
      split_ifs <;> rfl
    dsimp only [physicsTurtle_r] at this ⊢
    rw [this]
    norm_num [SURFACE_Y, SEABED_Y, canvasHeight] at *
    linarith
  · norm_num [SEABED_Y, canvasHeight] at *
    linarith

/-- C3. A playing session whose turtle is at `y = SEABED_Y - r + 1` (`371` for
the `800 x 450` field and `r = 20`) and is not moving up (`vy ≥ 0`) ends the
next tick in `gameover`, for either value of `isDiving` and every `dt` with
`0 ≤ dt ≤ 0.033`: the seabed test `y + r > SEABED_Y` succeeds after the
physics step and `gameOver()` runs, handing the score to the leaderboard. -/
theorem seabed_death_fires (env : Env) (d : Draws) (dt : ℚ) (s : Session)
    (hs : s.state = State.playing)
    (hy : s.turtle.y = SEABED_Y - s.turtle.r + 1) (hv : 0 ≤ s.turtle.vy)
    (h0 : 0 ≤ dt) (h1 : dt ≤ 33 / 1000) :
    (afterBounds env d dt s).turtle.y + (afterBounds env d dt s).turtle.r > SEABED_Y ∧
    (update env d dt s).state = State.gameover ∧
    (update env d dt s).lbCalls = s.lbCalls ++ [s.score] := by
  have hb := afterBounds_frame env d dt s
  have hc : (afterBounds env d dt s).turtle.y + (afterBounds env d dt s).turtle.r > SEABED_Y := by
    rw [hb.2.2.2.2.2.1]
    exact seabed_contact _ dt _ hy hv h0 h1
  refine ⟨hc, ?_, ?_⟩
  · rw [update_playing env d dt s hs, if_pos hc]
    rfl
  · rw [update_playing env d dt s hs, if_pos hc]
    simp [gameOver, hb.2.1, hb.2.2.2.1]

theorem seabed_death_fires_witness :
    atSeabed.state = State.playing ∧ atSeabed.turtle.y = 371 ∧ atSeabed.turtle.r = 20 ∧
    (afterBounds sampleEnv sampleDraws (33 / 1000) atSeabed).turtle.y
      + (afterBounds sampleEnv sampleDraws (33 / 1000) atSeabed).turtle.r > SEABED_Y ∧
    (update sampleEnv sampleDraws (33 / 1000) atSeabed).state = State.gameover ∧
    (update sampleEnv sampleDraws (33 / 1000) atSeabed).lbCalls
      = atSeabed.lbCalls ++ [atSeabed.score] :=
  ⟨rfl, rfl, rfl,
    seabed_death_fires sampleEnv sampleDraws (33 / 1000) atSeabed rfl
      (by norm_num [atSeabed, SEABED_Y, canvasHeight]) (le_refl _) (by norm_num) (le_refl _)⟩


/-! ## C4: a seabed death and the entity sequences -/

/-- C4, as stated, fails: `atSeabed` dies of seabed contact on a tick of 33 ms
(no spawn is due, no jellyfish exists, so neither the draws nor the sine are
consulted), and its pearl has moved from `x = 400` to `x = 392.74` on that same
tick. -/
theorem seabed_death_moves_entities :
    atSeabed.state = State.playing ∧
    (afterBounds sampleEnv sampleDraws (33 / 1000) atSeabed).turtle.y
      + (afterBounds sampleEnv sampleDraws (33 / 1000) atSeabed).turtle.r > SEABED_Y ∧
    (update sampleEnv sampleDraws (33 / 1000) atSeabed).state = State.gameover ∧
    atSeabed.pearls = [{ x := 400, y := 200, r := 10 }] ∧
    (update sampleEnv sampleDraws (33 / 1000) atSeabed).pearls
      = [{ x := 39274 / 100, y := 200, r := 10 }] ∧
    (update sampleEnv sampleDraws (33 / 1000) atSeabed).pearls ≠ atSeabed.pearls := by
  have hp : (update sampleEnv sampleDraws (33 / 1000) atSeabed).pearls
      = [{ x := 39274 / 100, y := 200, r := 10 }] := by
    norm_num [update, afterBounds, moveEntities, spawnPhase, physicsTurtle, surfaceClamp,
      gameOver, movePearl, atSeabed, playingAtSpawn, startGame, resetWorld, updateScore,
      initialSession, resetToMenu, initialVars, SURFACE_Y, SEABED_Y, canvasHeight, MAX_VY,
      BUOYANCY, SPAWN_EVERY, PEARL_SPEED]
  refine ⟨rfl, ?_, ?_, rfl, hp, ?_⟩
  · norm_num [afterBounds, moveEntities, spawnPhase, physicsTurtle, surfaceClamp,
      atSeabed, playingAtSpawn, startGame, resetWorld, updateScore,
      initialSession, resetToMenu, initialVars, SURFACE_Y, SEABED_Y, canvasHeight, MAX_VY,
      BUOYANCY, SPAWN_EVERY]
  · norm_num [update, afterBounds, moveEntities, spawnPhase, physicsTurtle, surfaceClamp,
      gameOver, atSeabed, playingAtSpawn, startGame, resetWorld, updateScore,
      initialSession, resetToMenu, initialVars, SURFACE_Y, SEABED_Y, canvasHeight, MAX_VY,
      BUOYANCY, SPAWN_EVERY]
  · rw [hp]
    norm_num [atSeabed]

/-- C4, amended. On a playing tick that ends in game over because of seabed
contact, the jellyfish and pearl sequences after the tick are exactly those
left by the spawn, advance and cull steps of that tick, which run before the
seabed test; no pearl is collected and the score is unchanged. -/
theorem seabed_death_entities (env : Env) (d : Draws) (dt : ℚ) (s : Session)
    (hs : s.state = State.playing)
    (hc : (afterBounds env d dt s).turtle.y + (afterBounds env d dt s).turtle.r > SEABED_Y) :
    (update env d dt s).state = State.gameover ∧
    (update env d dt s).jellys = (moveEntities env dt (spawnPhase env d dt s)).jellys ∧
    (update env d dt s).pearls = (moveEntities env dt (spawnPhase env d dt s)).pearls ∧
    (update env d dt s).score = s.score := by
  have hb := afterBounds_frame env d dt s
  rw [update_playing env d dt s hs, if_pos hc]
  exact ⟨rfl, hb.2.2.2.2.2.2.1, hb.2.2.2.2.2.2.2, hb.2.1⟩

theorem seabed_death_entities_witness :
    atSeabed.state = State.playing ∧
    (update sampleEnv sampleDraws (33 / 1000) atSeabed).state = State.gameover ∧
    (update sampleEnv sampleDraws (33 / 1000) atSeabed).jellys
      = (moveEntities sampleEnv (33 / 1000)
          (spawnPhase sampleEnv sampleDraws (33 / 1000) atSeabed)).jellys ∧
    (update sampleEnv sampleDraws (33 / 1000) atSeabed).pearls
      = (moveEntities sampleEnv (33 / 1000)
          (spawnPhase sampleEnv sampleDraws (33 / 1000) atSeabed)).pearls ∧
    (update sampleEnv sampleDraws (33 / 1000) atSeabed).score = atSeabed.score :=
  ⟨rfl, seabed_death_entities sampleEnv sampleDraws (33 / 1000) atSeabed rfl
    (by norm_num [afterBounds, moveEntities, spawnPhase, physicsTurtle, surfaceClamp,
      atSeabed, playingAtSpawn, startGame, resetWorld, updateScore,
      initialSession, resetToMenu, initialVars, SURFACE_Y, SEABED_Y, canvasHeight, MAX_VY,
      BUOYANCY, SPAWN_EVERY])⟩

/-! ## C5: pickup scoring -/

theorem collectPearls_eq (s : Session) :
    (collectPearls s).score = s.score + s.pearls.countP (hitsPearl s.turtle) ∧
    (collectPearls s).pearls = s.pearls.filter (fun p => !hitsPearl s.turtle p) ∧
    (collectPearls s).state = s.state ∧ (collectPearls s).lbCalls = s.lbCalls ∧
    (collectPearls s).jellys = s.jellys := by
  simp [collectPearls, updateScore, pearlLoop_eq_filter]

/-- C5. On a playing tick the score never decreases; and when the tick
survives the seabed test and no jellyfish overlaps the turtle, the score grows
by exactly the number of pearls (as positioned after the advance and cull
step) whose squared distance to the turtle is below `(turtle.r + p.r)^2`, and
the pearls after the tick are the others, in their previous order. -/
theorem pickup_scoring (env : Env) (d : Draws) (dt : ℚ) (s : Session)
    (hs : s.state = State.playing) :
    s.score ≤ (update env d dt s).score ∧
    (¬ (afterBounds env d dt s).turtle.y + (afterBounds env d dt s).turtle.r > SEABED_Y →
     (∀ j ∈ (afterBounds env d dt s).jellys,
        ¬ dist2 (afterBounds env d dt s).turtle.x (afterBounds env d dt s).turtle.y j.x j.y
            < ((afterBounds env d dt s).turtle.r + j.r - 2) ^ 2) →
     (update env d dt s).score = s.score + (afterBounds env d dt s).pearls.countP
        (fun p => decide (dist2 (afterBounds env d dt s).turtle.x
          (afterBounds env d dt s).turtle.y p.x p.y
            < ((afterBounds env d dt s).turtle.r + p.r) ^ 2)) ∧
     (update env d dt s).pearls = (afterBounds env d dt s).pearls.filter
        (fun p => decide (¬ dist2 (afterBounds env d dt s).turtle.x
          (afterBounds env d dt s).turtle.y p.x p.y
            < ((afterBounds env d dt s).turtle.r + p.r) ^ 2)) ∧
     (update env d dt s).state = State.playing) := by
  have hb := afterBounds_frame env d dt s
  have hce := collectPearls_eq (afterBounds env d dt s)
  have hP : hitsPearl (afterBounds env d dt s).turtle = fun p =>
      decide (dist2 (afterBounds env d dt s).turtle.x (afterBounds env d dt s).turtle.y p.x p.y
        < ((afterBounds env d dt s).turtle.r + p.r) ^ 2) := by
    funext p
    simp [hitsPearl, sq]
  constructor
  · rw [update_playing env d dt s hs]
    split_ifs
    · exact le_of_eq hb.2.1.symm
    · exact le_of_eq hb.2.1.symm
    · rw [hce.1, hb.2.1]
      exact Nat.le_add_right _ _
  · intro hsurv hno
    have hany : ¬ (afterBounds env d dt s).jellys.any
        (hitsJelly (afterBounds env d dt s).turtle) = true := by
      rw [List.any_eq_true]
      rintro ⟨j, hj, hhit⟩
      apply hno j hj
      simpa [hitsJelly, sq] using hhit
    rw [update_playing env d dt s hs, if_neg hsurv, if_neg hany, hce.1, hce.2.1, hce.2.2.1,
      hb.2.1, hb.1, hP]
    refine ⟨rfl, ?_, hs⟩
    congr 1
    funext p
    simp only [decide_not]

theorem pearlScenario_after :
    afterBounds sampleEnv sampleDraws 0 pearlScenario = pearlScenario := by
  norm_num [afterBounds, moveEntities, spawnPhase, physicsTurtle, surfaceClamp, movePearl,
    pearlScenario, playingAtSpawn, startGame, resetWorld, updateScore,
    initialSession, resetToMenu, initialVars, SURFACE_Y, MAX_VY, BUOYANCY, SPAWN_EVERY,
    PEARL_SPEED]

theorem pickup_scoring_witness :
    pearlScenario.state = State.playing ∧ pearlScenario.score = 3 ∧
    (update sampleEnv sampleDraws 0 pearlScenario).score = 3 + 1 ∧
    (update sampleEnv sampleDraws 0 pearlScenario).pearls = [] ∧
    (update sampleEnv sampleDraws 0 pearlScenario).state = State.playing := by
  have h := (pickup_scoring sampleEnv sampleDraws 0 pearlScenario rfl).2
    (by rw [pearlScenario_after]; norm_num [pearlScenario, playingAtSpawn, startGame,
          resetWorld, updateScore, initialSession, resetToMenu, initialVars, SEABED_Y,
          canvasHeight])
    (by rw [pearlScenario_after]; simp [pearlScenario, playingAtSpawn, startGame,
          resetWorld, updateScore])
  rw [pearlScenario_after] at h
  refine ⟨rfl, rfl, ?_, ?_, h.2.2⟩
  · rw [h.1]
    norm_num [pearlScenario, playingAtSpawn, startGame, resetWorld, updateScore,
      initialSession, resetToMenu, initialVars, dist2]
  · rw [h.2.1]
    norm_num [pearlScenario, playingAtSpawn, startGame, resetWorld, updateScore,
      initialSession, resetToMenu, initialVars, dist2]


/-! ## C6: a hazard collision takes precedence over pickups -/

/-- C6. On a playing tick that survives the seabed test, if some jellyfish (as
positioned after the advance and cull step) has squared distance to the turtle
below `(turtle.r + j.r - 2)^2`, the tick ends in `gameover` with `gameOver()`
run once, the score is the score before the tick, and the pearls are those
left by the advance and cull step: none is collected, overlapping or not. -/
theorem hazard_precedence (env : Env) (d : Draws) (dt : ℚ) (s : Session)
    (hs : s.state = State.playing)
    (hsurv : ¬ (afterBounds env d dt s).turtle.y + (afterBounds env d dt s).turtle.r > SEABED_Y)
    (hhit : ∃ j ∈ (afterBounds env d dt s).jellys,
        dist2 (afterBounds env d dt s).turtle.x (afterBounds env d dt s).turtle.y j.x j.y
          < ((afterBounds env d dt s).turtle.r + j.r - 2) ^ 2) :
    (update env d dt s).state = State.gameover ∧
    (update env d dt s).score = s.score ∧
    (update env d dt s).pearls = (moveEntities env dt (spawnPhase env d dt s)).pearls ∧
    (update env d dt s).lbCalls = s.lbCalls ++ [s.score] := by
  have hb := afterBounds_frame env d dt s
  have hany : (afterBounds env d dt s).jellys.any
      (hitsJelly (afterBounds env d dt s).turtle) = true := by
    rw [List.any_eq_true]
    obtain ⟨j, hj, hlt⟩ := hhit
    exact ⟨j, hj, by simpa [hitsJelly, sq] using hlt⟩
  rw [update_playing env d dt s hs, if_neg hsurv, if_pos hany]
  refine ⟨rfl, hb.2.1, hb.2.2.2.2.2.2.2, ?_⟩
  simp [gameOver, hb.2.1, hb.2.2.2.1]

theorem jellyScenario_after :
    afterBounds sampleEnv sampleDraws 0 jellyScenario = jellyScenario := by
  norm_num [afterBounds, moveEntities, spawnPhase, physicsTurtle, surfaceClamp, movePearl,
    moveJelly, jellyScenario, playingAtSpawn, startGame, resetWorld, updateScore,
    initialSession, resetToMenu, initialVars, SURFACE_Y, MAX_VY, BUOYANCY, SPAWN_EVERY,
    PEARL_SPEED, HAZARD_SPEED]

theorem hazard_precedence_witness :
    jellyScenario.state = State.playing ∧
    dist2 140 280 150 280 = 100 ∧
    jellyScenario.pearls.any (hitsPearl jellyScenario.turtle) = true ∧
    (update sampleEnv sampleDraws 0 jellyScenario).state = State.gameover ∧
    (update sampleEnv sampleDraws 0 jellyScenario).score = jellyScenario.score ∧
    (update sampleEnv sampleDraws 0 jellyScenario).pearls
      = (moveEntities sampleEnv 0 (spawnPhase sampleEnv sampleDraws 0 jellyScenario)).pearls ∧
    (update sampleEnv sampleDraws 0 jellyScenario).lbCalls
      = jellyScenario.lbCalls ++ [jellyScenario.score] :=
  ⟨rfl, by norm_num [dist2],
    by norm_num [jellyScenario, playingAtSpawn, startGame, resetWorld, updateScore, hitsPearl,
      dist2, initialSession, resetToMenu, initialVars],
    hazard_precedence sampleEnv sampleDraws 0 jellyScenario rfl
      (by rw [jellyScenario_after]; norm_num [jellyScenario, playingAtSpawn, startGame,
            resetWorld, updateScore, SEABED_Y, canvasHeight, initialSession, resetToMenu,
            initialVars])
      (by rw [jellyScenario_after]
          exact ⟨{ x := 150, y := 280, r := 24, phase := 0 },
            by simp [jellyScenario, playingAtSpawn, startGame, resetWorld, updateScore],
            by norm_num [jellyScenario, playingAtSpawn, startGame, resetWorld, updateScore,
              dist2, initialSession, resetToMenu, initialVars]⟩)⟩

/-! ## C7: cull correctness -/

/-- The entities `spawnPhase` appends: at most one in total, at the end of its
sequence. -/
theorem spawnPhase_entities (env : Env) (d : Draws) (dt : ℚ) (s : Session) :
    ∃ (newJ : List Jelly) (newP : List Pearl), newJ.length + newP.length ≤ 1 ∧
      (spawnPhase env d dt s).jellys = s.jellys ++ newJ ∧
      (spawnPhase env d dt s).pearls = s.pearls ++ newP := by
  unfold spawnPhase spawnEntity
  dsimp only
  split_ifs
  · exact ⟨[_], [], by simp, rfl, by simp⟩
  · exact ⟨[], [_], by simp, by simp, rfl⟩
  · exact ⟨[], [], by simp, by simp, by simp⟩

theorem update_jellys (env : Env) (d : Draws) (dt : ℚ) (s : Session)
    (hs : s.state = State.playing) :
    (update env d dt s).jellys = (moveEntities env dt (spawnPhase env d dt s)).jellys := by
  rw [update_playing env d dt s hs, ← (afterBounds_frame env d dt s).2.2.2.2.2.2.1]
  split_ifs
  · rfl
  · rfl
  · exact (collectPearls_eq _).2.2.2.2

/-- C7. On a playing tick with `dt ≥ 0`, the sequences after the advance and
cull step are the previous sequences, with at most one newly spawned entity
appended at the end, advanced and filtered by `x + r > -20`, hence
order-preserving subsequences of the advanced sequences; every jellyfish or
pearl that had `x + r < -20` before the tick is dropped by the filter and its
advanced copy is absent from the result.  The jellyfish after the whole tick
are those of the step. -/
theorem cull_correct (env : Env) (d : Draws) (dt : ℚ) (s : Session)
    (hs : s.state = State.playing) (hdt : 0 ≤ dt) :
    ∃ (newJ : List Jelly) (newP : List Pearl), newJ.length + newP.length ≤ 1 ∧
      (moveEntities env dt (spawnPhase env d dt s)).jellys
        = ((s.jellys ++ newJ).map (moveJelly env dt)).filter
            (fun j => decide (j.x + j.r > -20)) ∧
      (moveEntities env dt (spawnPhase env d dt s)).pearls
        = ((s.pearls ++ newP).map (movePearl dt)).filter
            (fun p => decide (p.x + p.r > -20)) ∧
      List.Sublist (moveEntities env dt (spawnPhase env d dt s)).jellys
        ((s.jellys ++ newJ).map (moveJelly env dt)) ∧
      List.Sublist (moveEntities env dt (spawnPhase env d dt s)).pearls
        ((s.pearls ++ newP).map (movePearl dt)) ∧
      (∀ j ∈ s.jellys, j.x + j.r < -20 →
        ¬ ((moveJelly env dt j).x + (moveJelly env dt j).r > -20) ∧
        moveJelly env dt j ∉ (moveEntities env dt (spawnPhase env d dt s)).jellys) ∧
      (∀ p ∈ s.pearls, p.x + p.r < -20 →
        ¬ ((movePearl dt p).x + (movePearl dt p).r > -20) ∧
        movePearl dt p ∉ (moveEntities env dt (spawnPhase env d dt s)).pearls) ∧
      (update env d dt s).jellys = (moveEntities env dt (spawnPhase env d dt s)).jellys := by
  obtain ⟨newJ, newP, hlen, hJ, hP⟩ := spawnPhase_entities env d dt s
  have hmJ : (moveEntities env dt (spawnPhase env d dt s)).jellys
      = ((s.jellys ++ newJ).map (moveJelly env dt)).filter
          (fun j => decide (j.x + j.r > -20)) := by
    simp only [moveEntities, hJ]
  have hmP : (moveEntities env dt (spawnPhase env d dt s)).pearls
      = ((s.pearls ++ newP).map (movePearl dt)).filter
          (fun p => decide (p.x + p.r > -20)) := by
    simp only [moveEntities, hP]
  refine ⟨newJ, newP, hlen, hmJ, hmP, ?_, ?_, ?_, ?_, update_jellys env d dt s hs⟩
  · rw [hmJ]; exact List.filter_sublist _
  · rw [hmP]; exact List.filter_sublist _
  · intro j _ hj
    have hgone : ¬ ((moveJelly env dt j).x + (moveJelly env dt j).r > -20) := by
      simp only [moveJelly, HAZARD_SPEED]
      nlinarith
    refine ⟨hgone, fun hmem => hgone ?_⟩
    rw [hmJ] at hmem
    simpa using (List.mem_filter.mp hmem).2
  · intro p _ hp
    have hgone : ¬ ((movePearl dt p).x + (movePearl dt p).r > -20) := by
      simp only [movePearl, PEARL_SPEED]
      nlinarith
    refine ⟨hgone, fun hmem => hgone ?_⟩
    rw [hmP] at hmem
    simpa using (List.mem_filter.mp hmem).2

theorem cull_correct_witness :
    cullScenario.state = State.playing ∧
    (moveEntities sampleEnv (1 / 100)
      (spawnPhase sampleEnv sampleDraws (1 / 100) cullScenario)).jellys = [] ∧
    (moveEntities sampleEnv (1 / 100)
      (spawnPhase sampleEnv sampleDraws (1 / 100) cullScenario)).pearls
        = [{ x := 3978 / 10, y := 200, r := 10 }] ∧
    ∃ (newJ : List Jelly) (newP : List Pearl), newJ.length + newP.length ≤ 1 ∧
      (moveEntities sampleEnv (1 / 100)
          (spawnPhase sampleEnv sampleDraws (1 / 100) cullScenario)).jellys
        = ((cullScenario.jellys ++ newJ).map (moveJelly sampleEnv (1 / 100))).filter
            (fun j => decide (j.x + j.r > -20)) ∧
      (moveEntities sampleEnv (1 / 100)
          (spawnPhase sampleEnv sampleDraws (1 / 100) cullScenario)).pearls
        = ((cullScenario.pearls ++ newP).map (movePearl (1 / 100))).filter
            (fun p => decide (p.x + p.r > -20)) := by
  obtain ⟨newJ, newP, hlen, hJ, hP, _⟩ :=
    cull_correct sampleEnv sampleDraws (1 / 100) cullScenario rfl (by norm_num)
  refine ⟨rfl, ?_, ?_, newJ, newP, hlen, hJ, hP⟩
  · norm_num [moveEntities, spawnPhase, moveJelly, cullScenario, playingAtSpawn, startGame,
      resetWorld, updateScore, initialSession, resetToMenu, initialVars, SPAWN_EVERY,
      HAZARD_SPEED, sampleEnv]
  · norm_num [moveEntities, spawnPhase, movePearl, cullScenario, playingAtSpawn, startGame,
      resetWorld, updateScore, initialSession, resetToMenu, initialVars, SPAWN_EVERY,
      PEARL_SPEED]


/-! ## C8: reset idempotence -/

/-- C8. From any session, `resetToMenu()` yields the canonical menu session:
`state = 'menu'`, no jellyfish, no pearls, score `0`, spawn accumulator `0`,
turtle at `(140, 280)` with `vy = 0`, the radius and the variables the reset
does not assign (`last`, `isDiving`, the leaderboard record) being kept; and a
second `resetToMenu()` changes nothing more. -/
theorem reset_idempotent (s : Session) :
    resetToMenu s =
      { state := State.menu, last := s.last, accSpawn := 0, score := 0
        turtle := { x := 140, y := 280, r := s.turtle.r, vy := 0 }
        jellys := [], pearls := [], isDiving := s.isDiving, lbCalls := s.lbCalls } ∧
    resetToMenu (resetToMenu s) = resetToMenu s :=
  ⟨rfl, rfl⟩

/-! ## C9: the delta-time of a frame -/

/-- C9, as stated, fails: with `last = 1000` and `ts = 0` the frame computes
`dt = -1`, which is below zero, and `loop` hands exactly that `dt` to
`update`. -/
theorem loopDt_negative :
    loopDt 0 1000 = -1 ∧ ¬ (0 ≤ loopDt 0 1000) ∧
    loop sampleEnv sampleDraws 0 { playingAtSpawn with last := 1000 }
      = update sampleEnv sampleDraws (-1) { playingAtSpawn with last := 0 } := by
  have h : loopDt 0 1000 = -1 := by norm_num [loopDt, orZero]
  refine ⟨h, by rw [h]; norm_num, ?_⟩
  show update sampleEnv sampleDraws (loopDt 0 1000) _ = _
  rw [h]

/-- C9, amended. The `dt` that `loop(ts)` passes to `update` is
`min(0.033, (ts - last) / 1000)`: it is at most `0.033` for all `ts` and
`last`, it is at least `0` when `ts ≥ last`, and when `ts < last` it is the
negative elapsed time `(ts - last) / 1000` itself. -/
theorem loopDt_bounds (env : Env) (d : Draws) (ts : ℚ) (s : Session) :
    loop env d ts s = update env d (loopDt ts s.last) { s with last := ts } ∧
    loopDt ts s.last = min (33 / 1000) ((ts - s.last) / 1000) ∧
    loopDt ts s.last ≤ 33 / 1000 ∧
    (s.last ≤ ts → 0 ≤ loopDt ts s.last) ∧
    (ts < s.last → loopDt ts s.last = (ts - s.last) / 1000 ∧ loopDt ts s.last < 0) := by
  have ho : orZero ((ts - s.last) / 1000) = (ts - s.last) / 1000 := by
    unfold orZero
    split_ifs with h0
    · exact h0.symm
    · rfl
  have he : loopDt ts s.last = min (33 / 1000) ((ts - s.last) / 1000) := by
    rw [loopDt, ho]
  refine ⟨rfl, he, ?_, ?_, ?_⟩
  · rw [he]; exact min_le_left _ _
  · intro hle
    rw [he]
    refine le_min (by norm_num) ?_
    apply div_nonneg <;> linarith
  · intro hlt
    have hneg : (ts - s.last) / 1000 < 0 := by
      apply div_neg_of_neg_of_pos <;> linarith
    have hm : min (33 / 1000 : ℚ) ((ts - s.last) / 1000) = (ts - s.last) / 1000 :=
      min_eq_right (by linarith)
    rw [he, hm]
    exact ⟨rfl, hneg⟩

theorem loopDt_bounds_witness :
    (initialSession.last ≤ 16 ∧ 0 ≤ loopDt 16 initialSession.last
      ∧ loopDt 16 initialSession.last ≤ 33 / 1000) ∧
    ((0 : ℚ) < ({ playingAtSpawn with last := 1000 } : Session).last ∧
      loopDt 0 ({ playingAtSpawn with last := 1000 } : Session).last = (0 - 1000) / 1000) :=
  ⟨⟨by norm_num [initialSession, resetToMenu, resetWorld, updateScore, initialVars],
     (loopDt_bounds sampleEnv sampleDraws 16 initialSession).2.2.2.1
       (by norm_num [initialSession, resetToMenu, resetWorld, updateScore, initialVars]),
     (loopDt_bounds sampleEnv sampleDraws 16 initialSession).2.2.1⟩,
   ⟨by norm_num,
     ((loopDt_bounds sampleEnv sampleDraws 0 { playingAtSpawn with last := 1000 }).2.2.2.2
       (by norm_num)).1⟩⟩

/-! ## C10: frozen outside `playing` -/

theorem updates_of_not_playing (env : Env) (ticks : List (ℚ × Draws)) (s : Session)
    (h : s.state ≠ State.playing) : updates env ticks s = s := by
  induction ticks with
  | nil => rfl
  | cons t rest ih =>
    obtain ⟨dt, d⟩ := t
    rw [updates, update_of_not_playing env d dt s h, ih]

/-- A playing tick either stays in `playing` without calling `gameOver`, or
ends in `gameover` having handed the final score over exactly once. -/
theorem update_playing_exits (env : Env) (d : Draws) (dt : ℚ) (s : Session)
    (hs : s.state = State.playing) :
    ((update env d dt s).state = State.playing ∧ (update env d dt s).lbCalls = s.lbCalls) ∨
    ((update env d dt s).state = State.gameover ∧
      (update env d dt s).lbCalls = s.lbCalls ++ [(update env d dt s).score]) := by
  have hb := afterBounds_frame env d dt s
  have hce := collectPearls_eq (afterBounds env d dt s)
  rw [update_playing env d dt s hs]
  split_ifs
  · right; exact ⟨rfl, by simp [gameOver, hb.2.2.2.1]⟩
  · right; exact ⟨rfl, by simp [gameOver, hb.2.2.2.1]⟩
  · left; exact ⟨by rw [hce.2.2.1, hb.1, hs], by rw [hce.2.2.2.1, hb.2.2.2.1]⟩

theorem updates_lbCalls (env : Env) (ticks : List (ℚ × Draws)) :
    ∀ p : Session, p.state = State.playing →
      (updates env ticks p).lbCalls = p.lbCalls ++
        (if (updates env ticks p).state = State.gameover
          then [(updates env ticks p).score] else []) := by
  induction ticks with
  | nil => intro p hp; simp [updates, hp]
  | cons t rest ih =>
    intro p hp
    obtain ⟨dt, d⟩ := t
    rw [updates]
    rcases update_playing_exits env d dt p hp with ⟨h1, h2⟩ | ⟨h1, h2⟩
    · rw [ih _ h1, h2]
    · rw [updates_of_not_playing env rest _ (by rw [h1]; decide), if_pos h1, h2]

/-- C10. For every `dt`, `update(dt)` on a session in `menu` or `gameover` is
the identity on the whole session, the record of `gameOver()` calls included,
and so is any run of such ticks.  Consequently, over any run of ticks started
in `playing`, the final score is handed to the leaderboard exactly once if
the run has reached `gameover` and not at all while it is still `playing`. -/
theorem frozen_outside_playing (env : Env) (d : Draws) (dt : ℚ) (s : Session)
    (h : s.state = State.menu ∨ s.state = State.gameover)
    (p : Session) (hp : p.state = State.playing) :
    update env d dt s = s ∧
    (∀ ticks : List (ℚ × Draws), updates env ticks s = s) ∧
    (∀ ticks : List (ℚ × Draws),
      (updates env ticks p).lbCalls = p.lbCalls ++
        (if (updates env ticks p).state = State.gameover
          then [(updates env ticks p).score] else [])) := by
  have hn : s.state ≠ State.playing := by
    rcases h with h | h <;> rw [h] <;> decide
  exact ⟨update_of_not_playing env d dt s hn,
    fun ticks => updates_of_not_playing env ticks s hn,
    fun ticks => updates_lbCalls env ticks p hp⟩

theorem frozen_outside_playing_witness :
    (deadSession.state = State.menu ∨ deadSession.state = State.gameover) ∧
    atSeabed.state = State.playing ∧
    update sampleEnv sampleDraws (33 / 1000) deadSession = deadSession ∧
    updates sampleEnv [(33 / 1000, sampleDraws), (16 / 1000, sampleDraws)] deadSession
      = deadSession ∧
    (updates sampleEnv [(33 / 1000, sampleDraws), (16 / 1000, sampleDraws)] atSeabed).lbCalls
      = atSeabed.lbCalls ++
        (if (updates sampleEnv [(33 / 1000, sampleDraws), (16 / 1000, sampleDraws)]
              atSeabed).state = State.gameover
          then [(updates sampleEnv [(33 / 1000, sampleDraws), (16 / 1000, sampleDraws)]
              atSeabed).score] else []) :=
  ⟨Or.inr rfl, rfl,
    (frozen_outside_playing sampleEnv sampleDraws (33 / 1000) deadSession (Or.inr rfl)
      atSeabed rfl).1,
    (frozen_outside_playing sampleEnv sampleDraws (33 / 1000) deadSession (Or.inr rfl)
      atSeabed rfl).2.1 _,
    (frozen_outside_playing sampleEnv sampleDraws (33 / 1000) deadSession (Or.inr rfl)
      atSeabed rfl).2.2 _⟩

end TurtleGame
